import Mathlib

/-!
Shallow embedding of the resilient request layer of `k-app-web`:
the `ApiClient` class (token storage, single-flight refresh, 401
refresh-and-resend, retry wrapper), the `retry`/`validateApiResponse`
utilities from `src/utils/api.ts`, and the `useApi` hook state machine
from `src/hooks/useApi.ts`.

JavaScript runs single-threaded and cooperative: an `async` function
body executes atomically up to its next `await`.  Concurrency is
therefore modelled by explicit state-transition functions whose grain
is one synchronous block of the source, and "N concurrent callers"
is a sequence of such transitions interleaved between settlements.
Machine integers do not overflow in any relevant range, so times,
statuses and counters are `Nat`.  Token values carried in response
bodies are modelled as JSON strings (the only shape the backend and
the tests use).
-/

namespace KAppWeb

/-- JSON-like payload values, the raw bodies `response.json()` yields. -/
inductive Payload where
  | nullv : Payload
  | boolv (b : Bool) : Payload
  | numv (n : Int) : Payload
  | strv (s : String) : Payload
  | arr (xs : List Payload) : Payload
  | obj (fields : List (String × Payload)) : Payload
deriving Repr

/-- First binding of a field name in an object literal. -/
def lookupField : List (String × Payload) → String → Option Payload
  | [], _ => none
  | (k, v) :: rest, name => if k = name then some v else lookupField rest name

/-- Property access `data.name` (yields `undefined` off objects). -/
def getField : Payload → String → Option Payload
  | .obj fields, name => lookupField fields name
  | _, _ => none

/-- JavaScript truthiness of a payload value. -/
def jsTruthy : Payload → Bool
  | .nullv => false
  | .boolv b => b
  | .numv n => n != 0
  | .strv s => s != ""
  | .arr _ => true
  | .obj _ => true

/-- Truthiness of an optional string (`undefined`/`null`/`""` are falsy). -/
def truthy : Option String → Bool
  | none => false
  | some s => s != ""

/-- Errors thrown by the client (`ApiError` in `src/utils/api.ts`);
`details`/`cause` carry no behaviour the layer branches on and are
dropped. -/
structure ApiError where
  message : String
  code : Option String
  status : Option Nat
deriving Repr, DecidableEq

/-- `isApiResponse` from `src/utils/api.ts`: a non-null object with a
boolean `success` property. -/
def isApiResponse (data : Payload) : Bool :=
  match data with
  | .obj fields =>
    match lookupField fields "success" with
    | some (.boolv _) => true
    | _ => false
  | _ => false

/-- The `success` field of a payload, when it is a boolean. -/
def successField (data : Payload) : Option Bool :=
  match data with
  | .obj fields =>
    match lookupField fields "success" with
    | some (.boolv b) => some b
    | _ => none
  | _ => none

/-- A string-valued truthy field, as consumed by
`response.message || response.error || ...` fallbacks. -/
def truthyStringField (data : Payload) (name : String) : Option String :=
  match getField data name with
  | some (.strv s) => if s = "" then none else some s
  | _ => none

/-- `response.message || response.error || 'API 요청 실패: <endpoint>'`. -/
def apiErrorMessage (response : Payload) (endpoint : String) : String :=
  (((truthyStringField response "message").orElse fun _ =>
    (truthyStringField response "error")).getD ("API 요청 실패: " ++ endpoint))

/-- `validateApiResponse` from `src/utils/api.ts`: malformed payloads
raise `INVALID_RESPONSE`; `success = false` raises `API_ERROR`;
otherwise the payload passes through unchanged. -/
def validateApiResponse (response : Payload) (endpoint : String) :
    Except ApiError Payload :=
  if isApiResponse response then
    match successField response with
    | some true => .ok response
    | _ =>
      .error
        { message := apiErrorMessage response endpoint
          code := some "API_ERROR"
          status := none }
  else
    .error
      { message := "Invalid API response from " ++ endpoint
        code := some "INVALID_RESPONSE"
        status := none }

/-! ## `retry` from `src/utils/api.ts` -/

/-- The delay slept before the next attempt:
`backoff ? delay * Math.pow(2, attempt - 1) : delay`. -/
def currentDelay (delayMs : Nat) (backoff : Bool) (attempt : Nat) : Nat :=
  if backoff then delayMs * 2 ^ (attempt - 1) else delayMs

/-- The `for (attempt = 1; attempt <= maxAttempts; ...)` loop of `retry`.
`fn a` is the outcome of attempt number `a`; `fuel` bounds the remaining
iterations (the loop itself runs at most `maxAttempts` times, so fuel
exhaustion is unreachable when started with `fuel = maxAttempts`).
Returns the surfaced result, the number of attempts performed, and the
list of delays slept between attempts. -/
def retryGo {α : Type} (fn : Nat → Except ApiError α)
    (shouldRetry : ApiError → Bool) (maxAttempts delayMs : Nat)
    (backoff : Bool) : Nat → Nat → Except ApiError α × Nat × List Nat
  | _, 0 => (.error { message := "unreachable", code := none, status := none }, 0, [])
  | attempt, fuel + 1 =>
    match fn attempt with
    | .ok v => (.ok v, 1, [])
    | .error e =>
      if attempt = maxAttempts || !shouldRetry e then
        (.error e, 1, [])
      else
        let d := currentDelay delayMs backoff attempt
        let rest := retryGo fn shouldRetry maxAttempts delayMs backoff (attempt + 1) fuel
        (rest.1, rest.2.1 + 1, d :: rest.2.2)

/-- `retry(fn, { maxAttempts, delay, backoff, shouldRetry })`. -/
def retryModel {α : Type} (fn : Nat → Except ApiError α)
    (shouldRetry : ApiError → Bool) (maxAttempts delayMs : Nat)
    (backoff : Bool) : Except ApiError α × Nat × List Nat :=
  retryGo fn shouldRetry maxAttempts delayMs backoff 1 maxAttempts

/-- The retry predicate `ApiClient.request` passes to `retry`:
`!error.status || error.status >= 500` (a 4xx status is never
retried; a missing or zero status — timeout, network — is). -/
def shouldRetryClient (e : ApiError) : Bool :=
  match e.status with
  | none => true
  | some s => s = 0 || 500 ≤ s

/-! ## `ApiClient` state and single-flight refresh -/

/-- The mutable fields of the `ApiClient` singleton together with the
two `localStorage` keys, plus an identifier supply for promise objects
and a count of calls made to the refresh endpoint. -/
structure RefreshState where
  token : Option String
  refreshTok : Option String
  isRefreshing : Bool
  refreshPromise : Option Nat
  networkRefreshCalls : Nat
  storageToken : Option String
  storageRefresh : Option String
  nextPromiseId : Nat
deriving Repr, DecidableEq

/-- What a call to `refreshAccessToken` does before any suspension:
it either returns the already-pending promise, throws
`NO_REFRESH_TOKEN`, or starts a new refresh. -/
inductive InvokeResult where
  | shared (id : Nat) : InvokeResult
  | started (id : Nat) : InvokeResult
  | noRefreshToken : InvokeResult
deriving Repr, DecidableEq

/-- The synchronous prefix of `refreshAccessToken`: the
`isRefreshing && refreshPromise` fast path, the `!this.refreshToken`
guard, and otherwise setting the flag, storing a fresh promise and
firing the network call of `performTokenRefresh` (an async body runs
synchronously up to its first `await`, so the `fetch` to
`/auth/refresh` is issued here). -/
def refreshInvoke (s : RefreshState) : RefreshState × InvokeResult :=
  if s.isRefreshing && s.refreshPromise.isSome then
    (s, .shared (s.refreshPromise.getD 0))
  else if !truthy s.refreshTok then
    (s, .noRefreshToken)
  else
    ({ s with
        isRefreshing := true
        refreshPromise := some s.nextPromiseId
        networkRefreshCalls := s.networkRefreshCalls + 1
        nextPromiseId := s.nextPromiseId + 1 },
     .started s.nextPromiseId)

/-- `n` further callers invoking `refreshAccessToken`, in order, with
no settlement in between; returns the final state and each caller's
result. -/
def refreshInvokeMany : RefreshState → Nat → RefreshState × List InvokeResult
  | s, 0 => (s, [])
  | s, n + 1 =>
    let first := refreshInvoke s
    let rest := refreshInvokeMany first.1 n
    (rest.1, first.2 :: rest.2)

/-- The promise a caller of `refreshAccessToken` ends up awaiting. -/
def awaitedPromise : InvokeResult → Option Nat
  | .shared id => some id
  | .started id => some id
  | .noRefreshToken => none

/-- `setTokens(token, refreshToken)` on the client:
`this.refreshToken = refreshToken || null`; a truthy token is saved to
storage (the refresh key only when the refresh token is truthy), a
falsy one clears both storage keys. -/
def setTokens (s : RefreshState) (tok : Option String)
    (refreshTok : Option String) : RefreshState :=
  let rt := if truthy refreshTok then refreshTok else none
  let s1 := { s with token := tok, refreshTok := rt }
  if truthy tok then
    { s1 with
        storageToken := tok
        storageRefresh := if truthy rt then rt else s1.storageRefresh }
  else
    { s1 with storageToken := none, storageRefresh := none }

/-- An HTTP response as the client consumes it: status plus decoded
JSON body. -/
structure HttpResponse where
  status : Nat
  body : Payload
deriving Repr

/-- `response.ok` of the Fetch API. -/
def respOk (r : HttpResponse) : Bool :=
  200 ≤ r.status && r.status < 300

/-- `data.data?.token || data.token` followed by the `!newToken`
falsiness check in `performTokenRefresh`. -/
def extractNewToken (body : Payload) : Option String :=
  let fromData := (getField body "data").bind fun d => getField d "token"
  let chosen :=
    match fromData with
    | some v => if jsTruthy v then some v else getField body "token"
    | none => getField body "token"
  match chosen with
  | some (.strv s) => if s = "" then none else some s
  | _ => none

/-- The outcome `performTokenRefresh` derives from the refresh
endpoint's response: non-ok status throws `TOKEN_REFRESH_FAILED`, a
body without a truthy token throws `INVALID_REFRESH_RESPONSE`,
otherwise the new access token is produced. -/
def performTokenRefresh (resp : HttpResponse) : Except ApiError String :=
  if !respOk resp then
    .error
      { message := "Token refresh failed"
        code := some "TOKEN_REFRESH_FAILED"
        status := some resp.status }
  else
    match extractNewToken resp.body with
    | none =>
      .error
        { message := "Invalid refresh response"
          code := some "INVALID_REFRESH_RESPONSE"
          status := none }
    | some t => .ok t

/-- Settlement of the pending refresh promise, as observed after the
`try/catch` of `refreshAccessToken` runs: on success
`performTokenRefresh` has already called
`setTokens(newToken, this.refreshToken)` and the flags are cleared;
on failure the flags are cleared and `clearTokensFromStorage()` removes
the two storage keys — the in-memory fields are left as they were. -/
def refreshSettle (s : RefreshState) (result : Except ApiError String) :
    RefreshState :=
  match result with
  | .ok t =>
    let s1 := setTokens s (some t) s.refreshTok
    { s1 with isRefreshing := false, refreshPromise := none }
  | .error _ =>
    { s with
        isRefreshing := false
        refreshPromise := none
        storageToken := none
        storageRefresh := none }

/-! ## `ApiClient.request` (`makeRequest`) -/

/-- The network activity one logical `makeRequest` can consume: the
response to the first send, the shared outcome of the refresh cycle
(if one is awaited), and the response to the resent request. -/
structure RequestNet where
  first : HttpResponse
  refreshResult : Except ApiError String
  second : HttpResponse

/-- The `AuthError` raised when anything inside the 401-handling `try`
block fails: `new ApiError('Authentication failed', { status: 401,
code: 'AUTH_FAILED', cause })`. -/
def authFailedError : ApiError :=
  { message := "Authentication failed", code := some "AUTH_FAILED", status := some 401 }

/-- The `HTTP_ERROR` built from a non-ok response:
`errorData.message || errorData.error || 'HTTP <status>: ...'`. -/
def httpErrorFrom (r : HttpResponse) : ApiError :=
  { message :=
      ((truthyStringField r.body "message").orElse fun _ =>
        (truthyStringField r.body "error")).getD
        ("HTTP " ++ toString r.status)
    code := some "HTTP_ERROR"
    status := some r.status }

/-- One execution of `makeRequest` inside `ApiClient.request`, given
the client's current tokens.  Returns the surfaced result and, in
order, the `Authorization` bearer token attached to each send of the
endpoint (the refresh call is not an endpoint send).  A 401 with auth
enabled and a refresh token present enters the refresh branch: on
refresh failure — or on any failure of the single resend, whose
exceptions the same `catch (refreshError)` swallows — the caller sees
`AUTH_FAILED`; otherwise the resend, carrying the refreshed
`this.token`, is validated and returned. -/
def makeRequest (token refreshTok : Option String) (skipAuth : Bool)
    (endpoint : String) (net : RequestNet) :
    Except ApiError Payload × List (Option String) :=
  let send1 := if skipAuth then none else if truthy token then token else none
  let r1 := net.first
  if r1.status = 401 && !skipAuth && truthy refreshTok then
    match net.refreshResult with
    | .error _ => (.error authFailedError, [send1])
    | .ok newTok =>
      let send2 := some newTok
      let r2 := net.second
      if !respOk r2 then
        (.error authFailedError, [send1, send2])
      else
        match validateApiResponse r2.body endpoint with
        | .ok p => (.ok p, [send1, send2])
        | .error _ => (.error authFailedError, [send1, send2])
  else if !respOk r1 then
    (.error (httpErrorFrom r1), [send1])
  else
    match validateApiResponse r1.body endpoint with
    | .ok p => (.ok p, [send1])
    | .error e => (.error e, [send1])

/-! ## Client-level operations for the token-pair invariant -/

/-- `authApi.login` on success: `apiClient.setTokens(response.data.token)` —
the second argument is omitted, so the stored refresh token becomes
`null`.  `authApi.logout`: `apiClient.setTokens(null)`. -/
def loginOp (s : RefreshState) (tok : String) : RefreshState :=
  setTokens s (some tok) none

/-- `authApi.logout`'s `finally` branch. -/
def logoutOp (s : RefreshState) : RefreshState :=
  setTokens s none none

/-- The client before any token is stored (empty `localStorage`). -/
def emptyClient : RefreshState :=
  { token := none, refreshTok := none, isRefreshing := false
    refreshPromise := none, networkRefreshCalls := 0
    storageToken := none, storageRefresh := none, nextPromiseId := 0 }

/-! ## `useApi` hook state (`src/hooks/useApi.ts`) -/

/-- The hook's render state and refs: `data`, `isLoading`, `error`,
`lastFetchTimeRef`, `retryCountRef`. -/
structure UseApiState (T : Type) where
  data : Option T
  isLoading : Bool
  errorMsg : Option String
  lastFetchTime : Nat
  retryCount : Nat
deriving Repr, DecidableEq

/-- Initial hook state for a given `initialData`. -/
def useApiInit {T : Type} (initialData : Option T) : UseApiState T :=
  { data := initialData, isLoading := false, errorMsg := none
    lastFetchTime := 0, retryCount := 0 }

/-- `isStale()`: `Date.now() - lastFetchTimeRef.current > staleTime`. -/
def isStale {T : Type} (staleTime now : Nat) (s : UseApiState T) : Bool :=
  now - s.lastFetchTime > staleTime

/-- The synchronous prefix of `fetchData(force)`: the early-return
guard `!enabled || (!force && !isStale() && data !== null)`, then
`setIsLoading(true); setError(null)` and the call to `fetcher()`.
The boolean reports whether a network call was issued. -/
def fetchStart {T : Type} (enabled force : Bool) (staleTime now : Nat)
    (s : UseApiState T) : UseApiState T × Bool :=
  if !enabled || (!force && !isStale staleTime now s && s.data.isSome) then
    (s, false)
  else
    ({ s with isLoading := true, errorMsg := none }, true)

/-- Settlement of a successful fetch (`response.success` with defined
data): store the value, stamp `lastFetchTime`, zero the retry counter,
and (in `finally`) drop `isLoading`. -/
def fetchSettleSuccess {T : Type} (now : Nat) (v : T) (s : UseApiState T) :
    UseApiState T :=
  { s with data := some v, lastFetchTime := now, retryCount := 0, isLoading := false }

/-- `reset()`: back to `initialData`, no error, not loading, timestamp
and retry counter zeroed. -/
def reset {T : Type} (initialData : Option T) (_s : UseApiState T) :
    UseApiState T :=
  { data := initialData, isLoading := false, errorMsg := none
    lastFetchTime := 0, retryCount := 0 }

/-! ## Helper lemmas -/

/-- `isApiResponse` holds exactly when the boolean `success` field exists. -/
lemma isApiResponse_eq_isSome (p : Payload) :
    isApiResponse p = (successField p).isSome := by
  cases p <;> simp [isApiResponse, successField]
  case obj fields =>
    cases h : lookupField fields "success" with
    | none => simp
    | some v => cases v <;> simp

/-- `retry` on a function that fails every attempt with a retryable
error runs the loop to `maxAttempts` and surfaces that error. -/
lemma retryGo_const_error {α : Type} (e : ApiError)
    (shouldRetry : ApiError → Bool) (he : shouldRetry e = true)
    (maxAttempts delayMs : Nat) (backoff : Bool) :
    ∀ fuel attempt, attempt + fuel = maxAttempts + 1 → 1 ≤ fuel →
      (retryGo (fun _ => (.error e : Except ApiError α)) shouldRetry
          maxAttempts delayMs backoff attempt fuel).1 = .error e ∧
      (retryGo (fun _ => (.error e : Except ApiError α)) shouldRetry
          maxAttempts delayMs backoff attempt fuel).2.1 = fuel := by
  intro fuel
  induction fuel with
  | zero => intro attempt _ h1; omega
  | succ f ih =>
    intro attempt hsum _
    by_cases hat : attempt = maxAttempts
    · have hf : f = 0 := by omega
      subst hf
      simp [retryGo, hat]
    · have hf1 : 1 ≤ f := by omega
      have := ih (attempt + 1) (by omega) hf1
      simp [retryGo, hat, he, this.1, this.2]

/-- A caller invoking `refreshAccessToken` while a refresh is pending
is handed back the pending promise and changes nothing. -/
lemma refreshInvoke_inflight (s : RefreshState) (id : Nat)
    (h1 : s.isRefreshing = true) (h2 : s.refreshPromise = some id) :
    refreshInvoke s = (s, .shared id) := by
  simp [refreshInvoke, h1, h2]

/-- Any number of callers arriving during a pending refresh all share
that promise and leave the state untouched. -/
lemma refreshInvokeMany_inflight (s : RefreshState) (id : Nat)
    (h1 : s.isRefreshing = true) (h2 : s.refreshPromise = some id) :
    ∀ n, refreshInvokeMany s n = (s, List.replicate n (.shared id)) := by
  intro n
  induction n with
  | zero => simp [refreshInvokeMany]
  | succ m ih =>
    simp [refreshInvokeMany, refreshInvoke_inflight s id h1 h2, ih,
      List.replicate_succ]

/-! ## Claims -/

/-- C9.  Response validation: a payload that is not a non-null object
with a boolean `success` field is rejected with code
`INVALID_RESPONSE` (the validator never sees an HTTP status, so this
is independent of it); `validateApiResponse` returns the payload
unchanged exactly when `success` is `true`, and raises — never
returns — when `success` is `false`. -/
theorem validateApiResponse_correct (p : Payload) (endpoint : String) :
    (isApiResponse p = false →
      ∃ e, validateApiResponse p endpoint = .error e ∧
        e.code = some "INVALID_RESPONSE") ∧
    (validateApiResponse p endpoint = .ok p ↔ successField p = some true) ∧
    (∀ q, validateApiResponse p endpoint = .ok q → q = p) ∧
    (successField p = some false →
      ∃ e, validateApiResponse p endpoint = .error e) := by
  have hiff := isApiResponse_eq_isSome p
  cases hs : successField p with
  | none =>
    rw [hs] at hiff
    simp only [Option.isSome_none] at hiff
    refine ⟨fun _ => ?_, ?_, ?_, ?_⟩
    · have hval : validateApiResponse p endpoint =
          .error { message := "Invalid API response from " ++ endpoint,
                   code := some "INVALID_RESPONSE", status := none } := by
        simp [validateApiResponse, hiff]
      exact ⟨_, hval, rfl⟩
    · simp [validateApiResponse, hiff]
    · simp [validateApiResponse, hiff]
    · simp [hs]
  | some b =>
    rw [hs] at hiff
    simp only [Option.isSome_some] at hiff
    cases b with
    | true =>
      refine ⟨fun hfalse => ?_, ?_, ?_, ?_⟩
      · rw [hiff] at hfalse; cases hfalse
      · simp [validateApiResponse, hiff, hs]
      · simp [validateApiResponse, hiff, hs]
      · simp [hs]
    | false =>
      refine ⟨fun hfalse => ?_, ?_, ?_, ?_⟩
      · rw [hiff] at hfalse; cases hfalse
      · simp [validateApiResponse, hiff, hs]
      · simp [validateApiResponse, hiff, hs]
      · intro _
        have hval : validateApiResponse p endpoint =
            .error { message := apiErrorMessage p endpoint,
                     code := some "API_ERROR", status := none } := by
          simp [validateApiResponse, hiff, hs]
        exact ⟨_, hval⟩

/-- Witness for C9 at concrete payloads. -/
theorem validateApiResponse_correct_witness :
    validateApiResponse (.obj [("success", .boolv true)]) "/meals" =
      .ok (.obj [("success", .boolv true)]) ∧
    ∃ e, validateApiResponse (.obj [("ok", .boolv true)]) "/meals" = .error e ∧
      e.code = some "INVALID_RESPONSE" :=
  ⟨(validateApiResponse_correct (.obj [("success", .boolv true)]) "/meals").2.1.mpr
      rfl,
   (validateApiResponse_correct (.obj [("ok", .boolv true)]) "/meals").1 rfl⟩

/-- C5.  Retry bound and predicate: a request configured with
`retries = r > 0` runs `retry` with `maxAttempts = r + 1`; against an
endpoint that always answers 503 it performs exactly `r + 1` attempts
and then surfaces that error, never more; and any error carrying a
4xx status is surfaced right after the attempt that produced it, with
no further attempts. -/
theorem retry_bound_and_predicate (r : Nat) (hr : 1 ≤ r) (e503 e4 : ApiError)
    (h503 : e503.status = some 503) (s4 : Nat) (hs4 : e4.status = some s4)
    (h400 : 400 ≤ s4) (h500 : s4 < 500) :
    (retryModel (fun _ => (.error e503 : Except ApiError Payload))
        shouldRetryClient (r + 1) 1000 true).2.1 = r + 1 ∧
    (retryModel (fun _ => (.error e503 : Except ApiError Payload))
        shouldRetryClient (r + 1) 1000 true).1 = .error e503 ∧
    (∀ (fn : Nat → Except ApiError Payload) (attempt fuel : Nat),
      fn attempt = .error e4 →
      retryGo fn shouldRetryClient (r + 1) 1000 true attempt (fuel + 1) =
        (.error e4, 1, [])) := by
  have hret : shouldRetryClient e503 = true := by
    simp [shouldRetryClient, h503]
  have hmain := retryGo_const_error (α := Payload) e503 shouldRetryClient hret
    (r + 1) 1000 true (r + 1) 1 (by omega) (by omega)
  refine ⟨hmain.2, hmain.1, ?_⟩
  intro fn attempt fuel hfn
  have hno : shouldRetryClient e4 = false := by
    simp only [shouldRetryClient, hs4]
    have h1 : ¬ s4 = 0 := by omega
    have h2 : ¬ 500 ≤ s4 := by omega
    simp [h1, h2]
  simp [retryGo, hfn, hno]

/-- Witness for C5 with `retries = 2` against a constant 503. -/
theorem retry_bound_and_predicate_witness :
    (retryModel (fun _ =>
        (.error { message := "HTTP 503", code := some "HTTP_ERROR",
                  status := some 503 } : Except ApiError Payload))
        shouldRetryClient 3 1000 true).2.1 = 3 ∧
    retryGo (fun _ =>
        (.error { message := "HTTP 404", code := some "HTTP_ERROR",
                  status := some 404 } : Except ApiError Payload))
      shouldRetryClient 3 1000 true 1 3 =
      (.error { message := "HTTP 404", code := some "HTTP_ERROR",
                status := some 404 }, 1, []) :=
  ⟨(retry_bound_and_predicate 2 (by decide)
      { message := "HTTP 503", code := some "HTTP_ERROR", status := some 503 }
      { message := "HTTP 404", code := some "HTTP_ERROR", status := some 404 }
      rfl 404 rfl (by decide) (by decide)).1,
   (retry_bound_and_predicate 2 (by decide)
      { message := "HTTP 503", code := some "HTTP_ERROR", status := some 503 }
      { message := "HTTP 404", code := some "HTTP_ERROR", status := some 404 }
      rfl 404 rfl (by decide) (by decide)).2.2 _ 1 2 rfl⟩

/-- C7 counterexample: the code applies no cap — with the client's
base delay of 1000ms the computed backoff delays exceed every bound,
so "capped at a maximum" is false of `retry`'s delay computation. -/
theorem backoff_uncapped :
    ¬ ∃ cap : Nat, ∀ attempt : Nat, currentDelay 1000 true attempt ≤ cap := by
  rintro ⟨cap, h⟩
  have h2 := h (cap + 2)
  simp [currentDelay] at h2
  have hpow : cap + 1 < 2 ^ (cap + 1) := Nat.lt_two_pow (cap + 1)
  omega

/-- C7 amended: with backoff enabled, the delay slept after failed
attempt `n` is exactly `baseDelay * 2 ^ (n - 1)` — with no cap — and
for a positive base delay the delays strictly increase with the
attempt number. -/
theorem backoff_schedule (delayMs : Nat) (hd : 0 < delayMs) :
    (∀ n, currentDelay delayMs true (n + 1) = delayMs * 2 ^ n) ∧
    (∀ m n, 1 ≤ m → m < n →
      currentDelay delayMs true m < currentDelay delayMs true n) := by
  constructor
  · intro n
    simp [currentDelay]
  · intro m n hm hmn
    simp only [currentDelay, if_pos rfl]
    have hpow : 2 ^ (m - 1) < 2 ^ (n - 1) :=
      Nat.pow_lt_pow_right (by norm_num) (by omega)
    exact mul_lt_mul_of_pos_left hpow hd

/-- Witness for C7's amended statement at the client's `delay: 1000`. -/
theorem backoff_schedule_witness :
    currentDelay 1000 true 1 = 1000 * 2 ^ 0 ∧
    currentDelay 1000 true 1 < currentDelay 1000 true 2 :=
  ⟨(backoff_schedule 1000 (by decide)).1 0,
   (backoff_schedule 1000 (by decide)).2 1 2 (by decide) (by decide)⟩

/-- C6 counterexample: an entry fetched at `T = 100` with stale window
`S = 50` is still treated as fresh by a read at exactly `T + S = 150`:
`isStale` is `false` there (the code compares with strict `>`), and
`fetchData` returns without issuing a network call — the claim says
the entry is stale and refetches at `T + S`. -/
theorem staleness_boundary_counterexample :
    isStale 50 150
      ({ data := some 0, isLoading := false, errorMsg := none,
         lastFetchTime := 100, retryCount := 0 } : UseApiState Nat) = false ∧
    (fetchStart true false 50 150
      ({ data := some 0, isLoading := false, errorMsg := none,
         lastFetchTime := 100, retryCount := 0 } : UseApiState Nat)).2 = false := by
  decide

/-- C6 amended: an entry fetched at `T` with stale window `S` is fresh
— reads return the cached value with no network call — at every time
up to and including `T + S`, and first becomes stale (the read
triggers a refetch) at `T + S + 1`. -/
theorem staleness_boundary {α : Type} (T S t : Nat) (v : α)
    (s : UseApiState α) (hd : s.data = some v) (hT : s.lastFetchTime = T)
    (ht : t ≤ T + S) :
    isStale S t s = false ∧
    (fetchStart true false S t s).2 = false ∧
    (fetchStart true false S t s).1 = s ∧
    isStale S (T + S + 1) s = true ∧
    (fetchStart true false S (T + S + 1) s).2 = true := by
  have hfresh : isStale S t s = false := by
    simp only [isStale, hT, decide_eq_false_iff_not]
    omega
  have hstale : isStale S (T + S + 1) s = true := by
    simp only [isStale, hT, decide_eq_true_eq]
    omega
  have hsome : s.data.isSome = true := by simp [hd]
  refine ⟨hfresh, ?_, ?_, hstale, ?_⟩
  · simp [fetchStart, hfresh, hsome]
  · simp [fetchStart, hfresh, hsome]
  · simp [fetchStart, hstale]

/-- Witness for C6's amended statement: `T = 100`, `S = 50`, read at
`t = 150 = T + S` is fresh; read at `151` refetches. -/
theorem staleness_boundary_witness :
    isStale 50 150
      ({ data := some 0, isLoading := false, errorMsg := none,
         lastFetchTime := 100, retryCount := 0 } : UseApiState Nat) = false ∧
    (fetchStart true false 50 (100 + 50 + 1)
      ({ data := some 0, isLoading := false, errorMsg := none,
         lastFetchTime := 100, retryCount := 0 } : UseApiState Nat)).2 = true :=
  ⟨(staleness_boundary 100 50 150 0 _ rfl rfl (by decide)).1,
   (staleness_boundary 100 50 150 0 _ rfl rfl (by decide)).2.2.2.2⟩

/-- C10.  `reset()` restores the initial state — `data` back to
`initialData`, `error` null, `isLoading` false, last-fetch timestamp
and retry counter zeroed — so the next `fetchData` call, even without
`force`, performs a fresh fetch instead of serving the previous cached
value (the zeroed timestamp makes `isStale` true at any `now` beyond
the stale window). -/
theorem reset_restores_initial {α : Type} (initialData : Option α)
    (s : UseApiState α) (staleTime now : Nat) (h : staleTime < now) :
    reset initialData s = useApiInit initialData ∧
    (reset initialData s).data = initialData ∧
    (reset initialData s).errorMsg = none ∧
    (reset initialData s).isLoading = false ∧
    (reset initialData s).lastFetchTime = 0 ∧
    (reset initialData s).retryCount = 0 ∧
    (fetchStart true false staleTime now (reset initialData s)).2 = true := by
  have hstale : isStale staleTime now (reset initialData s) = true := by
    simp only [isStale, reset, decide_eq_true_eq]
    omega
  refine ⟨rfl, rfl, rfl, rfl, rfl, rfl, ?_⟩
  simp [fetchStart, hstale]

/-- Witness for C10: a hook that fetched at time 7 and was then reset
refetches at `now = 10` with a 5ms stale window even though it had data. -/
theorem reset_restores_initial_witness :
    (fetchStart true false 5 10
      (reset (some 1)
        ({ data := some 2, isLoading := false, errorMsg := none,
           lastFetchTime := 7, retryCount := 0 } : UseApiState Nat))).2 = true :=
  (reset_restores_initial (some 1)
    ({ data := some 2, isLoading := false, errorMsg := none,
       lastFetchTime := 7, retryCount := 0 } : UseApiState Nat)
    5 10 (by decide)).2.2.2.2.2.2

/-- C1.  Single-flight refresh: when `n + 1` callers each observe a
401 and invoke `refreshAccessToken` before the refresh settles,
exactly one call reaches the refresh endpoint; the first caller starts
the refresh and every later caller is handed the same shared pending
promise, so all of them await the same settlement — and when that
promise settles with the new token `t`, the client's token is `t`, the
single value every resent request then carries. -/
theorem single_flight_refresh (s : RefreshState) (n : Nat)
    (h1 : s.isRefreshing = false) (h3 : truthy s.refreshTok = true) :
    (refreshInvokeMany s (n + 1)).1.networkRefreshCalls =
      s.networkRefreshCalls + 1 ∧
    (refreshInvokeMany s (n + 1)).2 =
      .started s.nextPromiseId ::
        List.replicate n (.shared s.nextPromiseId) ∧
    (∀ r ∈ (refreshInvokeMany s (n + 1)).2,
      awaitedPromise r = some s.nextPromiseId) ∧
    (∀ t, (refreshSettle (refreshInvokeMany s (n + 1)).1 (.ok t)).token =
      some t) := by
  have hstart : refreshInvoke s =
      ({ s with
          isRefreshing := true
          refreshPromise := some s.nextPromiseId
          networkRefreshCalls := s.networkRefreshCalls + 1
          nextPromiseId := s.nextPromiseId + 1 },
       .started s.nextPromiseId) := by
    simp [refreshInvoke, h1, h3]
  have hrest := refreshInvokeMany_inflight
    ({ s with
        isRefreshing := true
        refreshPromise := some s.nextPromiseId
        networkRefreshCalls := s.networkRefreshCalls + 1
        nextPromiseId := s.nextPromiseId + 1 })
    s.nextPromiseId rfl rfl n
  have hmany : refreshInvokeMany s (n + 1) =
      ({ s with
          isRefreshing := true
          refreshPromise := some s.nextPromiseId
          networkRefreshCalls := s.networkRefreshCalls + 1
          nextPromiseId := s.nextPromiseId + 1 },
       .started s.nextPromiseId ::
         List.replicate n (.shared s.nextPromiseId)) := by
    simp [refreshInvokeMany, hstart, hrest]
  refine ⟨by rw [hmany], by rw [hmany], ?_, ?_⟩
  · intro r hr
    rw [hmany] at hr
    rcases List.mem_cons.mp hr with h | h
    · subst h; rfl
    · rw [List.eq_of_mem_replicate h]; rfl
  · intro t
    rw [hmany]
    simp only [refreshSettle, setTokens]
    split <;> rfl

/-- Witness for C1: three concurrent 401 observers, one wire call. -/
theorem single_flight_refresh_witness :
    (refreshInvokeMany
      ({ token := some "old", refreshTok := some "r", isRefreshing := false,
         refreshPromise := none, networkRefreshCalls := 0,
         storageToken := some "old", storageRefresh := some "r",
         nextPromiseId := 0 } : RefreshState) 3).1.networkRefreshCalls = 1 ∧
    (refreshInvokeMany
      ({ token := some "old", refreshTok := some "r", isRefreshing := false,
         refreshPromise := none, networkRefreshCalls := 0,
         storageToken := some "old", storageRefresh := some "r",
         nextPromiseId := 0 } : RefreshState) 3).2 =
      [.started 0, .shared 0, .shared 0] :=
  ⟨(single_flight_refresh
      ({ token := some "old", refreshTok := some "r", isRefreshing := false,
         refreshPromise := none, networkRefreshCalls := 0,
         storageToken := some "old", storageRefresh := some "r",
         nextPromiseId := 0 } : RefreshState) 2 rfl (by decide)).1,
   (single_flight_refresh
      ({ token := some "old", refreshTok := some "r", isRefreshing := false,
         refreshPromise := none, networkRefreshCalls := 0,
         storageToken := some "old", storageRefresh := some "r",
         nextPromiseId := 0 } : RefreshState) 2 rfl (by decide)).2.1⟩

/-- C2 counterexample: two `fetchData` calls issued concurrently —
the second while the first is still pending — from a hook with no data
yet each issue their own network call (`fetcher()` runs twice), where
the claim requires exactly one underlying network call. -/
theorem fetch_dedup_counterexample :
    (fetchStart true false 300000 1000 (useApiInit (none : Option Nat))).2 =
      true ∧
    (fetchStart true false 300000 1000
      (fetchStart true false 300000 1000
        (useApiInit (none : Option Nat))).1).2 = true := by
  decide

/-- C2 amended: `useApi.fetchData` performs no in-flight
de-duplication.  A call issues a network request exactly when the hook
is enabled and the call is forced, the entry is stale, or no data is
cached — the guard never consults any pending-operation state — and
starting a fetch leaves `data` and the fetch timestamp unchanged, so a
second caller arriving before the first settles passes the same guard
and issues its own request rather than attaching to the first. -/
theorem fetch_no_dedup {α : Type} (enabled force : Bool)
    (staleTime now : Nat) (s : UseApiState α) :
    ((fetchStart enabled force staleTime now s).2 = true ↔
      enabled = true ∧
        (force = true ∨ isStale staleTime now s = true ∨ s.data = none)) ∧
    (fetchStart enabled force staleTime now s).1.data = s.data ∧
    (fetchStart enabled force staleTime now s).1.lastFetchTime =
      s.lastFetchTime := by
  cases enabled with
  | false => simp [fetchStart]
  | true =>
    cases force with
    | true => simp [fetchStart]
    | false =>
      cases hst : isStale staleTime now s with
      | false =>
        cases hdata : s.data with
        | none => simp [fetchStart, hst, hdata]
        | some v => simp [fetchStart, hst, hdata]
      | true => simp [fetchStart, hst]

/-- C3.  401 refresh-and-resend-once: a request with `skipAuth` false
and a refresh token present that receives HTTP 401 triggers a token
refresh.  On refresh failure the caller gets an error with code
`AUTH_FAILED` and no resend happens (and the retry wrapper's predicate
rejects that 401-status error, so no further attempts follow).  On
refresh success the original request is resent exactly once, carrying
the new token, and when that response is ok and validates, its
validated payload is returned. -/
theorem refresh_and_resend_once (token refreshTok : Option String)
    (endpoint : String) (net : RequestNet)
    (hrt : truthy refreshTok = true) (h401 : net.first.status = 401) :
    authFailedError.code = some "AUTH_FAILED" ∧
    (∀ e, net.refreshResult = .error e →
      makeRequest token refreshTok false endpoint net =
        (.error authFailedError,
         [if truthy token then token else none])) ∧
    (∀ newTok, net.refreshResult = .ok newTok →
      (makeRequest token refreshTok false endpoint net).2 =
        [if truthy token then token else none, some newTok] ∧
      (respOk net.second = true →
        ∀ p, validateApiResponse net.second.body endpoint = .ok p →
          (makeRequest token refreshTok false endpoint net).1 = .ok p)) ∧
    shouldRetryClient authFailedError = false := by
  refine ⟨rfl, ?_, ?_, by decide⟩
  · intro e he
    simp [makeRequest, h401, hrt, he]
  · intro newTok hok
    constructor
    · simp only [makeRequest, h401, hrt, hok]
      cases h2 : respOk net.second with
      | false => simp [h2]
      | true =>
        cases hv : validateApiResponse net.second.body endpoint with
        | ok p => simp [h2, hv]
        | error e => simp [h2, hv]
    · intro hok2 p hvp
      simp [makeRequest, h401, hrt, hok, hok2, hvp]

/-- Witness for C3: a 401 followed by a successful refresh and a clean
resend returns the validated payload, with the two sends carrying the
old and then the new token. -/
theorem refresh_and_resend_once_witness :
    (makeRequest (some "old") (some "r") false "/auth/me"
      { first := { status := 401, body := .nullv },
        refreshResult := .ok "new",
        second := { status := 200,
                    body := .obj [("success", .boolv true)] } }).2 =
      [some "old", some "new"] ∧
    (makeRequest (some "old") (some "r") false "/auth/me"
      { first := { status := 401, body := .nullv },
        refreshResult := .ok "new",
        second := { status := 200,
                    body := .obj [("success", .boolv true)] } }).1 =
      .ok (.obj [("success", .boolv true)]) := by
  refine ⟨?_, ?_⟩
  · exact ((refresh_and_resend_once (some "old") (some "r") "/auth/me"
      { first := { status := 401, body := .nullv },
        refreshResult := .ok "new",
        second := { status := 200, body := .obj [("success", .boolv true)] } }
      (by decide) rfl).2.2.1 "new" rfl).1
  · exact ((refresh_and_resend_once (some "old") (some "r") "/auth/me"
      { first := { status := 401, body := .nullv },
        refreshResult := .ok "new",
        second := { status := 200, body := .obj [("success", .boolv true)] } }
      (by decide) rfl).2.2.1 "new" rfl).2 rfl _ rfl

/-- A client mid-session: both tokens live in memory and in storage,
no refresh pending. -/
def failState : RefreshState :=
  { token := some "a", refreshTok := some "r", isRefreshing := false
    refreshPromise := none, networkRefreshCalls := 0
    storageToken := some "a", storageRefresh := some "r", nextPromiseId := 0 }

/-- C4 counterexample: when the refresh network call answers 500, the
error `performTokenRefresh` raises carries code `TOKEN_REFRESH_FAILED`
— not `REFRESH_FAILED` — and settling the refresh cycle with it leaves
the in-memory token pair intact (only the durable copies are cleared),
contradicting "clears ... both the in-memory copy and the durable
copy" and the claimed error code. -/
theorem refresh_failure_counterexample :
    performTokenRefresh { status := 500, body := .nullv } =
      .error { message := "Token refresh failed",
               code := some "TOKEN_REFRESH_FAILED", status := some 500 } ∧
    (refreshSettle (refreshInvoke failState).1
      (.error { message := "Token refresh failed",
                code := some "TOKEN_REFRESH_FAILED",
                status := some 500 })).token = some "a" ∧
    (refreshSettle (refreshInvoke failState).1
      (.error { message := "Token refresh failed",
                code := some "TOKEN_REFRESH_FAILED",
                status := some 500 })).refreshTok = some "r" ∧
    "TOKEN_REFRESH_FAILED" ≠ "REFRESH_FAILED" := by
  refine ⟨rfl, rfl, rfl, by decide⟩

/-- C4 amended: when the refresh network call fails, the raised error
carries code `TOKEN_REFRESH_FAILED` (with the response's status);
settling the refresh with it clears only the durable token copies —
the in-memory pair is unchanged — every caller of the cycle awaits the
one shared promise and so observes this same error, and the
pending-refresh slot is cleared, so a future 401 starts a fresh
refresh (one more endpoint call, a newly started promise). -/
theorem refresh_failure_handling (s : RefreshState) (resp : HttpResponse)
    (e : ApiError) (hok : respOk resp = false)
    (he : performTokenRefresh resp = .error e) :
    e.code = some "TOKEN_REFRESH_FAILED" ∧
    e.status = some resp.status ∧
    (refreshSettle s (.error e)).storageToken = none ∧
    (refreshSettle s (.error e)).storageRefresh = none ∧
    (refreshSettle s (.error e)).token = s.token ∧
    (refreshSettle s (.error e)).refreshTok = s.refreshTok ∧
    (refreshSettle s (.error e)).isRefreshing = false ∧
    (refreshSettle s (.error e)).refreshPromise = none ∧
    (truthy s.refreshTok = true →
      (refreshInvoke (refreshSettle s (.error e))).1.networkRefreshCalls =
          s.networkRefreshCalls + 1 ∧
      (refreshInvoke (refreshSettle s (.error e))).2 =
          .started s.nextPromiseId) := by
  simp only [performTokenRefresh, hok, Bool.not_false, if_true,
    Except.error.injEq] at he
  refine ⟨by rw [← he], by rw [← he], rfl, rfl, rfl, rfl, rfl, rfl, ?_⟩
  intro ht
  constructor <;> simp [refreshInvoke, refreshSettle, ht]

/-- Witness for C4's amended statement at a mid-session client and a
500 refresh response. -/
theorem refresh_failure_handling_witness :
    (refreshSettle failState
      (.error { message := "Token refresh failed",
                code := some "TOKEN_REFRESH_FAILED",
                status := some 500 })).storageToken = none ∧
    (refreshSettle failState
      (.error { message := "Token refresh failed",
                code := some "TOKEN_REFRESH_FAILED",
                status := some 500 })).token = some "a" :=
  ⟨(refresh_failure_handling failState { status := 500, body := .nullv }
      { message := "Token refresh failed",
        code := some "TOKEN_REFRESH_FAILED", status := some 500 }
      rfl rfl).2.2.1,
   (refresh_failure_handling failState { status := 500, body := .nullv }
      { message := "Token refresh failed",
        code := some "TOKEN_REFRESH_FAILED", status := some 500 }
      rfl rfl).2.2.2.2.1⟩

/-- C8 counterexample: `authApi.login` stores the access token with no
second argument — `setTokens(response.data.token)` — so right after a
successful login the client holds an access token while the refresh
token is absent, refuting the both-present-or-both-absent invariant. -/
theorem token_pair_counterexample :
    (loginOp emptyClient "tok").token = some "tok" ∧
    (loginOp emptyClient "tok").refreshTok = none := by
  exact ⟨rfl, rfl⟩

/-- C8 amended: the both-or-neither pair invariant fails exactly at
login, which leaves the access token present and the refresh token
absent.  What the storing operations do guarantee: logout clears both
in-memory tokens and both durable copies, and a successful refresh
stores the new access token while preserving the (truthy) refresh
token, so a 401 after login can never be recovered by refresh but one
after a real token pair was stored can. -/
theorem token_pair_amended (s : RefreshState) (tok newTok : String)
    (ht : truthy s.refreshTok = true) :
    (loginOp s tok).token = some tok ∧
    (loginOp s tok).refreshTok = none ∧
    (logoutOp s).token = none ∧
    (logoutOp s).refreshTok = none ∧
    (logoutOp s).storageToken = none ∧
    (logoutOp s).storageRefresh = none ∧
    (refreshSettle s (.ok newTok)).token = some newTok ∧
    (refreshSettle s (.ok newTok)).refreshTok = s.refreshTok := by
  refine ⟨?_, ?_, rfl, rfl, rfl, rfl, ?_, ?_⟩
  · simp only [loginOp, setTokens]
    split <;> rfl
  · simp only [loginOp, setTokens]
    split <;> rfl
  · simp only [refreshSettle, setTokens]
    split <;> rfl
  · simp only [refreshSettle, setTokens, ht]
    split <;> simp [ht]

/-- Witness for C8's amended statement at a mid-session client. -/
theorem token_pair_amended_witness :
    (loginOp
      ({ token := some "a", refreshTok := some "r", isRefreshing := false,
         refreshPromise := none, networkRefreshCalls := 0,
         storageToken := some "a", storageRefresh := some "r",
         nextPromiseId := 0 } : RefreshState) "t1").refreshTok = none ∧
    (refreshSettle
      ({ token := some "a", refreshTok := some "r", isRefreshing := false,
         refreshPromise := none, networkRefreshCalls := 0,
         storageToken := some "a", storageRefresh := some "r",
         nextPromiseId := 0 } : RefreshState) (.ok "new")).refreshTok =
      some "r" :=
  ⟨(token_pair_amended
      ({ token := some "a", refreshTok := some "r", isRefreshing := false,
         refreshPromise := none, networkRefreshCalls := 0,
         storageToken := some "a", storageRefresh := some "r",
         nextPromiseId := 0 } : RefreshState) "t1" "new" (by decide)).2.1,
   (token_pair_amended
      ({ token := some "a", refreshTok := some "r", isRefreshing := false,
         refreshPromise := none, networkRefreshCalls := 0,
         storageToken := some "a", storageRefresh := some "r",
         nextPromiseId := 0 } : RefreshState) "t1" "new" (by decide)).2.2.2.2.2.2.2⟩

end KAppWeb
